import Mathlib

/-!
Shallow embedding of the SQL query executor (`sql_mcp_server`): the value
serializer `_serialize_value`, the output model `SQLQueryOutput`, and the
synchronous executor `_execute_query_sync` with its exception-classification
chain.  Python values are modelled by the capabilities the source inspects
(`is None`, `isinstance` of the JSON scalar tuple, `isinstance bytes`,
`hasattr isoformat`, `hasattr __dict__`, and the `str()` form); exceptions by
their position in the SQLAlchemy class hierarchy plus the `orig` attribute and
`str()` form.  The database driver is a parameter: an arbitrary function from
the engine configuration and execute call to an outcome, so theorems quantify
over every driver behaviour.  Wall-clock timing (`execution_time_ms`) is not
modelled; exceptions modelled are the `Exception`-derived faults the source's
handler chain can observe.
-/

/-- IEEE-754 double bit pattern, kept uninterpreted: the serializer only ever
passes floats through unchanged, so no float arithmetic is needed. -/
structure PyFloat where
  bits : Nat
deriving DecidableEq, Repr

/-- The JSON-native scalar types of the source's `isinstance(value, (str, int,
float, bool))` check. -/
inductive PyScalar where
  | s (v : String)
  | i (v : Int)
  | f (v : PyFloat)
  | b (v : Bool)
deriving DecidableEq, Repr

/-- A Python value as seen by `_serialize_value`: exactly the capabilities the
source tests, in its order.  `isNone` is `value is None`; `scalar` is `some`
iff `isinstance(value, (str, int, float, bool))`; `bytesVal` is `some` iff
`isinstance(value, bytes)` (the raw bytes); `isoformatAttr` is `some` iff
`hasattr(value, "isoformat")` (what `value.isoformat()` returns); `hasDict` is
`hasattr(value, "__dict__")`; `strForm` is `str(value)`. -/
structure PyObj where
  isNone : Bool
  scalar : Option PyScalar
  bytesVal : Option (List Nat)
  isoformatAttr : Option String
  hasDict : Bool
  strForm : String
deriving DecidableEq, Repr

/-- The `None` object. -/
def pyNone : PyObj := ⟨true, none, none, none, false, "None"⟩

/-- A Python `str`: `str` instances have no `__dict__` and `str(s) = s`. -/
def pyStr (s : String) : PyObj := ⟨false, some (.s s), none, none, false, s⟩

/-- A Python `int`. -/
def pyInt (n : Int) : PyObj := ⟨false, some (.i n), none, none, false, toString n⟩

/-- A Python `bool`. -/
def pyBool (b : Bool) : PyObj :=
  ⟨false, some (.b b), none, none, false, if b then "True" else "False"⟩

/-- A Python `float`; its `str()` form is irrelevant to the serializer (the
scalar branch returns the value unchanged) and is carried explicitly. -/
def pyFloat (v : PyFloat) (r : String) : PyObj := ⟨false, some (.f v), none, none, false, r⟩

/-- A Python `bytes` value; its `str()` form is never consumed (the bytes
branch fires before any fallback), so a placeholder is used. -/
def pyBytes (bs : List Nat) : PyObj := ⟨false, none, some bs, none, false, "<bytes>"⟩

/-- A datetime/date/time-like value: carries an `isoformat()` result; such C
types expose no instance `__dict__`. -/
def pyDatetime (iso : String) (s : String) : PyObj := ⟨false, none, none, some iso, false, s⟩

/-- Any other driver-specific object, with or without a `__dict__`. -/
def pyOpaqueObj (hd : Bool) (s : String) : PyObj := ⟨false, none, none, none, hd, s⟩

/-- Is `b` a UTF-8 continuation byte (`0x80..0xBF`)? -/
def isCont (b : Nat) : Bool := 0x80 ≤ b && b ≤ 0xBF

/-- Allowed second byte for a three-byte lead `b` (`0xE0..0xEF`): `0xE0`
forbids overlong encodings, `0xED` forbids surrogates. -/
def cont2ok3 (b c : Nat) : Bool :=
  if b = 0xE0 then 0xA0 ≤ c && c ≤ 0xBF
  else if b = 0xED then 0x80 ≤ c && c ≤ 0x9F
  else isCont c

/-- Allowed second byte for a four-byte lead `b` (`0xF0..0xF4`): `0xF0`
forbids overlong encodings, `0xF4` forbids code points above `U+10FFFF`. -/
def cont2ok4 (b c : Nat) : Bool :=
  if b = 0xF0 then 0x90 ≤ c && c ≤ 0xBF
  else if b = 0xF4 then 0x80 ≤ c && c ≤ 0x8F
  else isCont c

/-- UTF-8 decoding with CPython's `errors="replace"` handler: each maximal
ill-formed subsequence yields one `U+FFFD` and decoding resumes at the first
byte that broke the sequence.  Returns the decoded code points. -/
def utf8DecodeReplace : List Nat → List Nat
  | [] => []
  | b :: rest =>
    if b < 0x80 then b :: utf8DecodeReplace rest
    else if b < 0xC2 then 0xFFFD :: utf8DecodeReplace rest
    else if b < 0xE0 then
      match rest with
      | [] => [0xFFFD]
      | c1 :: rest1 =>
        if isCont c1 then ((b - 0xC0) * 64 + (c1 - 0x80)) :: utf8DecodeReplace rest1
        else 0xFFFD :: utf8DecodeReplace (c1 :: rest1)
    else if b < 0xF0 then
      match rest with
      | [] => [0xFFFD]
      | c1 :: rest1 =>
        if cont2ok3 b c1 then
          match rest1 with
          | [] => [0xFFFD]
          | c2 :: rest2 =>
            if isCont c2 then
              ((b - 0xE0) * 4096 + (c1 - 0x80) * 64 + (c2 - 0x80)) :: utf8DecodeReplace rest2
            else 0xFFFD :: utf8DecodeReplace (c2 :: rest2)
        else 0xFFFD :: utf8DecodeReplace (c1 :: rest1)
    else if b < 0xF5 then
      match rest with
      | [] => [0xFFFD]
      | c1 :: rest1 =>
        if cont2ok4 b c1 then
          match rest1 with
          | [] => [0xFFFD]
          | c2 :: rest2 =>
            if isCont c2 then
              match rest2 with
              | [] => [0xFFFD]
              | c3 :: rest3 =>
                if isCont c3 then
                  ((b - 0xF0) * 262144 + (c1 - 0x80) * 4096 + (c2 - 0x80) * 64 + (c3 - 0x80)) ::
                    utf8DecodeReplace rest3
                else 0xFFFD :: utf8DecodeReplace (c3 :: rest3)
            else 0xFFFD :: utf8DecodeReplace (c2 :: rest2)
        else 0xFFFD :: utf8DecodeReplace (c1 :: rest1)
    else 0xFFFD :: utf8DecodeReplace rest

/-- `bytes.decode("utf-8", errors="replace")`: decode and pack the code points
into a string. -/
def pyDecodeUtf8Replace (bs : List Nat) : String :=
  String.mk ((utf8DecodeReplace bs).map Char.ofNat)

/-- `_serialize_value` (sql_executor.py lines 24-37): `None` passes through;
JSON-native scalars pass through unchanged; `bytes` decode as UTF-8 with
replacement; values with `isoformat` map to its result; objects with a
`__dict__`, and anything else, fall back to `str(value)`. -/
def _serialize_value (value : PyObj) : PyObj :=
  if value.isNone then pyNone
  else if value.scalar.isSome then value
  else
    match value.bytesVal with
    | some bs => pyStr (pyDecodeUtf8Replace bs)
    | none =>
      match value.isoformatAttr with
      | some iso => pyStr iso
      | none => if value.hasDict then pyStr value.strForm else pyStr value.strForm

/-- A JSON-safe scalar: `None` or a member of the native scalar tuple. -/
def isJsonScalar (v : PyObj) : Bool := v.isNone || v.scalar.isSome

/-- Position of a raised exception in the class hierarchy the source's
`except` chain discriminates on.  In SQLAlchemy, `OperationalError`,
`ProgrammingError`, `IntegrityError` and the remaining DBAPI subfaults (such
as `DataError`, `InternalError`, `NotSupportedError`) are all subclasses of
`DatabaseError`, which is a subclass of `SQLAlchemyError`; everything else
raised is a plain `Exception`. -/
inductive ExcClass where
  | operationalError
  | programmingError
  | integrityError
  | otherDatabaseSub
  | databaseErrorBase
  | sqlalchemyOther
  | nonSQLAlchemy
deriving DecidableEq, Repr

/-- `isinstance(e, OperationalError)`. -/
def isOperationalError : ExcClass → Bool
  | .operationalError => true
  | _ => false

/-- `isinstance(e, ProgrammingError)`. -/
def isProgrammingError : ExcClass → Bool
  | .programmingError => true
  | _ => false

/-- `isinstance(e, IntegrityError)`. -/
def isIntegrityError : ExcClass → Bool
  | .integrityError => true
  | _ => false

/-- `isinstance(e, DatabaseError)`: true for `DatabaseError` itself and for
each of its subclasses. -/
def isDatabaseError : ExcClass → Bool
  | .operationalError => true
  | .programmingError => true
  | .integrityError => true
  | .otherDatabaseSub => true
  | .databaseErrorBase => true
  | _ => false

/-- `isinstance(e, SQLAlchemyError)`: every class above except faults from
outside the database access layer. -/
def isSQLAlchemyError : ExcClass → Bool
  | .nonSQLAlchemy => false
  | _ => true

/-- A raised exception: its class, its `orig` attribute (`some (str(e.orig))`
when the attribute exists and is truthy, `none` otherwise), and `str(e)`. -/
structure PyExc where
  cls : ExcClass
  orig : Option String
  strForm : String
deriving DecidableEq, Repr

/-- `str(e.orig) if hasattr(e, "orig") and e.orig else str(e)`. -/
def dbapiMsg (e : PyExc) : String := e.orig.getD e.strForm

/-- The output model `SQLQueryOutput` (models.py lines 25-53).  Row dicts are
association lists with Python dict-update semantics; `row_count` defaults to
0 and the optional fields to `none`.  `execution_time_ms` is not modelled. -/
structure SQLQueryOutput where
  success : Bool
  rows : Option (List (List (String × PyObj)))
  row_count : Int
  columns : Option (List String)
  error : Option String
  error_type : Option String
deriving DecidableEq, Repr

/-- An error-branch output: only `success`, `error` and `error_type` are
passed, the rest keep their model defaults. -/
def failureOutput (msg kind : String) : SQLQueryOutput :=
  ⟨false, none, 0, none, some msg, some kind⟩

/-- The `except` chain of `_execute_query_sync` (lines 98-156), tried in
source order: `OperationalError`, `ProgrammingError`, `IntegrityError`,
`DatabaseError`, `SQLAlchemyError`, `Exception`.  The last two use `str(e)`
directly; the DBAPI ones prefer `str(e.orig)`. -/
def classify (e : PyExc) : SQLQueryOutput :=
  if isOperationalError e.cls then
    failureOutput ("Connection error: " ++ dbapiMsg e) "connection_error"
  else if isProgrammingError e.cls then
    failureOutput ("SQL error: " ++ dbapiMsg e) "syntax_error"
  else if isIntegrityError e.cls then
    failureOutput ("Constraint violation: " ++ dbapiMsg e) "integrity_error"
  else if isDatabaseError e.cls then
    failureOutput ("Database error: " ++ dbapiMsg e) "database_error"
  else if isSQLAlchemyError e.cls then
    failureOutput ("Query error: " ++ e.strForm) "sqlalchemy_error"
  else
    failureOutput ("Unexpected error: " ++ e.strForm) "unexpected_error"

/-- Substring test, modelling Python's `needle in haystack` on `str`. -/
def strContains (hay needle : String) : Bool :=
  (List.range (hay.toList.length + 1)).any fun i => needle.toList.isPrefixOf (hay.toList.drop i)

/-- The `connect_args` passed to `create_engine` (line 53): a
`connect_timeout` of 10 unless `"sqlite"` occurs in the database URL. -/
structure EngineConfig where
  connectTimeout : Option Nat
deriving DecidableEq, Repr

/-- `connect_args={"connect_timeout": 10} if "sqlite" not in database_url
else {}`. -/
def connectArgsOf (database_url : String) : EngineConfig :=
  if strContains database_url "sqlite" then ⟨none⟩ else ⟨some 10⟩

/-- The call handed to `connection.execute`: the statement text and the bound
parameters (`none` when the statement runs literally). -/
structure ExecCall where
  statement : String
  boundParams : Option (List (String × PyObj))
deriving DecidableEq, Repr

/-- `if params:` — Python truthiness of an optional dict: `None` and the
empty mapping are falsy, so only a non-empty mapping is bound (lines 58-61). -/
def paramsArg (params : Option (List (String × PyObj))) : Option (List (String × PyObj)) :=
  match params with
  | none => none
  | some l => if l.isEmpty then none else some l

/-- What `connection.execute` produced: either a row set (`returns_rows`,
with `result.keys()` and the fetched rows) or an affected-row count
(`result.rowcount`). -/
inductive ExecResult where
  | rowSet (columns : List String) (rows : List (List PyObj))
  | affected (rowcount : Int)
deriving DecidableEq, Repr

/-- The driver side of one call, as arbitrary behaviour: engine creation plus
`engine.connect()` (which sees the engine's `connect_args`), statement
execution, and transaction commit; each step may raise. -/
structure Driver where
  connect : EngineConfig → Except PyExc Unit
  run : ExecCall → Except PyExc ExecResult
  commit : Except PyExc Unit

/-- Observable driver interactions of one call, in order. -/
inductive Event where
  | connectCalled (cfg : EngineConfig)
  | execCalled (call : ExecCall)
  | commitCalled
deriving DecidableEq, Repr

/-- `IndexError` raised by `row[i]` when a fetched row is shorter than the
column list; not a SQLAlchemy fault. -/
def indexError : PyExc := ⟨.nonSQLAlchemy, none, "tuple index out of range"⟩

/-- Python dict insertion: an existing key keeps its position and gets the
new value, a fresh key is appended. -/
def dictInsert (d : List (String × PyObj)) (k : String) (v : PyObj) : List (String × PyObj) :=
  match d with
  | [] => [(k, v)]
  | (ka, va) :: rest => if ka = k then (ka, v) :: rest else (ka, va) :: dictInsert rest k v

/-- `enumerate` over a list, indices starting at `n`. -/
def enumFromN (n : Nat) : List α → List (Nat × α)
  | [] => []
  | a :: as => (n, a) :: enumFromN (n + 1) as

/-- `{col: _serialize_value(row[i]) for i, col in enumerate(columns)}`, built
left to right over an accumulator dict; `row[i]` out of range raises. -/
def buildRowDictAux (row : List PyObj) :
    List (Nat × String) → List (String × PyObj) → Except PyExc (List (String × PyObj))
  | [], acc => .ok acc
  | (i, col) :: rest, acc =>
    match row.get? i with
    | some v => buildRowDictAux row rest (dictInsert acc col (_serialize_value v))
    | none => .error indexError

/-- One row dict of the comprehension at lines 69-72. -/
def buildRowDict (columns : List String) (row : List PyObj) :
    Except PyExc (List (String × PyObj)) :=
  buildRowDictAux row (enumFromN 0 columns) []

/-- The outer list comprehension: every fetched row converted to a dict, in
order, stopping at the first raise. -/
def buildRows (columns : List String) : List (List PyObj) →
    Except PyExc (List (List (String × PyObj)))
  | [] => .ok []
  | row :: rest =>
    match buildRowDict columns row with
    | .error e => .error e
    | .ok d =>
      match buildRows columns rest with
      | .error e => .error e
      | .ok ds => .ok (d :: ds)

/-- The `try` block of `_execute_query_sync` (lines 48-96): create the engine
and connect with the URL-dependent `connect_args`, execute with bound
parameters only when `params` is truthy, then branch on `returns_rows`.  The
first component is the block's outcome (a result, or the exception it
raised); the second is the trace of driver interactions that happened. -/
def runQuery (driver : Driver) (database_url query : String)
    (params : Option (List (String × PyObj))) :
    Except PyExc SQLQueryOutput × List Event :=
  match driver.connect (connectArgsOf database_url) with
  | .error e => (.error e, [.connectCalled (connectArgsOf database_url)])
  | .ok _ =>
    match driver.run ⟨query, paramsArg params⟩ with
    | .error e =>
      (.error e,
       [.connectCalled (connectArgsOf database_url), .execCalled ⟨query, paramsArg params⟩])
    | .ok (.rowSet columns rows) =>
      match buildRows columns rows with
      | .error e =>
        (.error e,
         [.connectCalled (connectArgsOf database_url), .execCalled ⟨query, paramsArg params⟩])
      | .ok dicts =>
        (.ok ⟨true, some dicts, (dicts.length : Int), some columns, none, none⟩,
         [.connectCalled (connectArgsOf database_url), .execCalled ⟨query, paramsArg params⟩])
    | .ok (.affected rc) =>
      match driver.commit with
      | .error e =>
        (.error e,
         [.connectCalled (connectArgsOf database_url), .execCalled ⟨query, paramsArg params⟩,
          .commitCalled])
      | .ok _ =>
        (.ok ⟨true, none, if rc ≥ 0 then rc else 0, none, none, none⟩,
         [.connectCalled (connectArgsOf database_url), .execCalled ⟨query, paramsArg params⟩,
          .commitCalled])

/-- `_execute_query_sync` (lines 40-156): the `try` block's result, with any
raised exception converted by the `except` chain.  Total by construction:
its Lean type already states that no exception escapes. -/
def _execute_query_sync (driver : Driver) (database_url query : String)
    (params : Option (List (String × PyObj))) : SQLQueryOutput :=
  match (runQuery driver database_url query params).1 with
  | .ok r => r
  | .error e => classify e

/-- The driver interactions one call performs. -/
def execEvents (driver : Driver) (database_url query : String)
    (params : Option (List (String × PyObj))) : List Event :=
  (runQuery driver database_url query params).2

/-- `execute_query` (lines 159-179) only offloads `_execute_query_sync` to a
worker thread; its result is the synchronous result. -/
def execute_query (driver : Driver) (database_url query : String)
    (params : Option (List (String × PyObj))) : SQLQueryOutput :=
  _execute_query_sync driver database_url query params

/-! Equation lemmas: one per control-flow branch of the `try` block. -/

section
variable (d : Driver) (u q : String) (p : Option (List (String × PyObj)))

lemma runQuery_conn_err (e : PyExc) (h : d.connect (connectArgsOf u) = .error e) :
    runQuery d u q p = (.error e, [.connectCalled (connectArgsOf u)]) := by
  unfold runQuery
  rw [h]

lemma runQuery_run_err (u1 : Unit) (e : PyExc) (hc : d.connect (connectArgsOf u) = .ok u1)
    (hr : d.run ⟨q, paramsArg p⟩ = .error e) :
    runQuery d u q p =
      (.error e, [.connectCalled (connectArgsOf u), .execCalled ⟨q, paramsArg p⟩]) := by
  unfold runQuery
  rw [hc, hr]

lemma runQuery_rows_err (u1 : Unit) (cols : List String) (rws : List (List PyObj)) (e : PyExc)
    (hc : d.connect (connectArgsOf u) = .ok u1)
    (hr : d.run ⟨q, paramsArg p⟩ = .ok (.rowSet cols rws))
    (hb : buildRows cols rws = .error e) :
    runQuery d u q p =
      (.error e, [.connectCalled (connectArgsOf u), .execCalled ⟨q, paramsArg p⟩]) := by
  unfold runQuery
  simp only [hc, hr, hb]

lemma runQuery_rows_ok (u1 : Unit) (cols : List String) (rws : List (List PyObj))
    (dicts : List (List (String × PyObj)))
    (hc : d.connect (connectArgsOf u) = .ok u1)
    (hr : d.run ⟨q, paramsArg p⟩ = .ok (.rowSet cols rws))
    (hb : buildRows cols rws = .ok dicts) :
    runQuery d u q p =
      (.ok ⟨true, some dicts, (dicts.length : Int), some cols, none, none⟩,
       [.connectCalled (connectArgsOf u), .execCalled ⟨q, paramsArg p⟩]) := by
  unfold runQuery
  simp only [hc, hr, hb]

lemma runQuery_commit_err (u1 : Unit) (rc : Int) (e : PyExc)
    (hc : d.connect (connectArgsOf u) = .ok u1)
    (hr : d.run ⟨q, paramsArg p⟩ = .ok (.affected rc))
    (hcm : d.commit = .error e) :
    runQuery d u q p =
      (.error e,
       [.connectCalled (connectArgsOf u), .execCalled ⟨q, paramsArg p⟩, .commitCalled]) := by
  unfold runQuery
  simp only [hc, hr, hcm]

lemma runQuery_affected (u1 u2 : Unit) (rc : Int)
    (hc : d.connect (connectArgsOf u) = .ok u1)
    (hr : d.run ⟨q, paramsArg p⟩ = .ok (.affected rc))
    (hcm : d.commit = .ok u2) :
    runQuery d u q p =
      (.ok ⟨true, none, if rc ≥ 0 then rc else 0, none, none, none⟩,
       [.connectCalled (connectArgsOf u), .execCalled ⟨q, paramsArg p⟩, .commitCalled]) := by
  unfold runQuery
  simp only [hc, hr, hcm]

/-- Exhaustive case split over the five branches, phrased on the pair. -/
lemma runQuery_cases :
    (∃ e, runQuery d u q p = (.error e, [.connectCalled (connectArgsOf u)])) ∨
    (∃ e, runQuery d u q p =
      (.error e, [.connectCalled (connectArgsOf u), .execCalled ⟨q, paramsArg p⟩])) ∨
    (∃ dicts cols, runQuery d u q p =
      (.ok ⟨true, some dicts, (dicts.length : Int), some cols, none, none⟩,
       [.connectCalled (connectArgsOf u), .execCalled ⟨q, paramsArg p⟩])) ∨
    (∃ e, runQuery d u q p =
      (.error e,
       [.connectCalled (connectArgsOf u), .execCalled ⟨q, paramsArg p⟩, .commitCalled])) ∨
    (∃ rc : Int, runQuery d u q p =
      (.ok ⟨true, none, if rc ≥ 0 then rc else 0, none, none, none⟩,
       [.connectCalled (connectArgsOf u), .execCalled ⟨q, paramsArg p⟩, .commitCalled])) := by
  rcases hc : d.connect (connectArgsOf u) with e | u1
  · exact .inl ⟨e, runQuery_conn_err d u q p e hc⟩
  rcases hr : d.run ⟨q, paramsArg p⟩ with e | res
  · exact .inr (.inl ⟨e, runQuery_run_err d u q p u1 e hc hr⟩)
  rcases res with ⟨cols, rws⟩ | rc
  · rcases hb : buildRows cols rws with e | dicts
    · exact .inr (.inl ⟨e, runQuery_rows_err d u q p u1 cols rws e hc hr hb⟩)
    · exact .inr (.inr (.inl ⟨dicts, cols, runQuery_rows_ok d u q p u1 cols rws dicts hc hr hb⟩))
  · rcases hcm : d.commit with e | u2
    · exact .inr (.inr (.inr (.inl ⟨e, runQuery_commit_err d u q p u1 rc e hc hr hcm⟩)))
    · exact .inr (.inr (.inr (.inr ⟨rc, runQuery_affected d u q p u1 u2 rc hc hr hcm⟩)))

end

/-! Helper lemmas about the classifier. -/

lemma classify_shape (e : PyExc) : ∃ m k, classify e = failureOutput m k := by
  unfold classify
  repeat' split
  all_goals exact ⟨_, _, rfl⟩

lemma exec_cases (d : Driver) (u q : String) (p : Option (List (String × PyObj))) :
    (∃ e, (runQuery d u q p).1 = .error e ∧ _execute_query_sync d u q p = classify e) ∨
    (∃ r, (runQuery d u q p).1 = .ok r ∧ _execute_query_sync d u q p = r) := by
  unfold _execute_query_sync
  cases h : (runQuery d u q p).1 with
  | error e => exact .inl ⟨e, rfl, rfl⟩
  | ok r => exact .inr ⟨r, rfl, rfl⟩

lemma runQuery_ok_shape (d : Driver) (u q : String) (p : Option (List (String × PyObj)))
    (r : SQLQueryOutput) (h : (runQuery d u q p).1 = .ok r) :
    r.success = true ∧ r.error = none ∧ r.error_type = none ∧ 0 ≤ r.row_count := by
  rcases runQuery_cases d u q p with ⟨e, hq⟩ | ⟨e, hq⟩ | ⟨dicts, cols, hq⟩ | ⟨e, hq⟩ | ⟨rc, hq⟩ <;>
    rw [hq] at h <;> simp at h
  · rw [← h]
    refine ⟨rfl, rfl, rfl, ?_⟩
    simp
  · rw [← h]
    refine ⟨rfl, rfl, rfl, ?_⟩
    dsimp only
    split <;> omega

/-! Concrete drivers used by witness theorems. -/

/-- A driver whose connection attempt raises an `OperationalError` wrapping a
refused connection. -/
def connRefusedDriver : Driver :=
  ⟨fun _ => .error ⟨.operationalError, some "connection refused", "wrapped driver fault"⟩,
   fun _ => .ok (.affected 0), .ok ()⟩

/-- A driver that connects and returns a two-column, two-row result set. -/
def rowsDriver : Driver :=
  ⟨fun _ => .ok (),
   fun _ => .ok (.rowSet ["id", "name"] [[pyInt 1, pyStr "a"], [pyInt 2, pyStr "b"]]),
   .ok ()⟩

/-- A driver for an affecting statement that reports a negative affected-row
count, as some drivers do for an unknown count. -/
def negCountDriver : Driver :=
  ⟨fun _ => .ok (), fun _ => .ok (.affected (-1)), .ok ()⟩

/-- A driver returning a duplicated column label, as a statement such as
`SELECT 1 AS x, 2 AS x` produces through `result.keys()`. -/
def dupColDriver : Driver :=
  ⟨fun _ => .ok (), fun _ => .ok (.rowSet ["x", "x"] [[pyInt 1, pyInt 2]]), .ok ()⟩

/-- C1: `execute` never raises to its caller: in the embedding
`_execute_query_sync` is a total function into `SQLQueryOutput` (the type
itself admits no escaping exception), and whenever the `try` block fails with
any exception `e` — during connection, execution, or result construction —
the call returns exactly the classified result, whose `success` is `false`. -/
theorem spec_C1 (d : Driver) (u q : String) (p : Option (List (String × PyObj))) (e : PyExc)
    (h : (runQuery d u q p).1 = .error e) :
    _execute_query_sync d u q p = classify e ∧
    (_execute_query_sync d u q p).success = false := by
  have hx : _execute_query_sync d u q p = classify e := by
    unfold _execute_query_sync
    rw [h]
  obtain ⟨m, k, hs⟩ := classify_shape e
  refine ⟨hx, ?_⟩
  rw [hx, hs]
  rfl

/-- C1 witness: a refused connection is captured as a failed result. -/
theorem spec_C1_witness :
    _execute_query_sync connRefusedDriver "postgresql://h/db" "SELECT 1" none =
      classify ⟨.operationalError, some "connection refused", "wrapped driver fault"⟩ ∧
    (_execute_query_sync connRefusedDriver "postgresql://h/db" "SELECT 1" none).success = false :=
  spec_C1 connRefusedDriver "postgresql://h/db" "SELECT 1" none
    ⟨.operationalError, some "connection refused", "wrapped driver fault"⟩ rfl

/-- C2: the serializer is total — its output is always `None` or a JSON-native
scalar — and its checks apply in source order: `None` maps to `None`; a
JSON-native scalar passes through unchanged; bytes decode as UTF-8 with
replacement; an `isoformat`-bearing value maps to that ISO-8601 text; any
other value falls back to its `str()` form. -/
theorem spec_C2 (v : PyObj) :
    isJsonScalar (_serialize_value v) = true
    ∧ (v.isNone = true → _serialize_value v = pyNone)
    ∧ (v.isNone = false → v.scalar.isSome = true → _serialize_value v = v)
    ∧ (∀ bs, v.isNone = false → v.scalar = none → v.bytesVal = some bs →
        _serialize_value v = pyStr (pyDecodeUtf8Replace bs))
    ∧ (∀ iso, v.isNone = false → v.scalar = none → v.bytesVal = none →
        v.isoformatAttr = some iso → _serialize_value v = pyStr iso)
    ∧ (v.isNone = false → v.scalar = none → v.bytesVal = none → v.isoformatAttr = none →
        _serialize_value v = pyStr v.strForm) := by
  rcases v with ⟨n, sc, bv, iso, hd, st⟩
  cases n <;> cases sc <;> cases bv <;> cases iso <;> cases hd <;>
    simp [_serialize_value, pyNone, pyStr, isJsonScalar]

/-- C2 witness: a non-UTF-8 byte sequence serializes via replacement
decoding. -/
theorem spec_C2_witness :
    _serialize_value (pyBytes [0x61, 0xFF, 0x62]) =
      pyStr (pyDecodeUtf8Replace [0x61, 0xFF, 0x62]) :=
  (spec_C2 (pyBytes [0x61, 0xFF, 0x62])).2.2.2.1 [0x61, 0xFF, 0x62] rfl rfl rfl

/-- C3: every produced `SQLQueryOutput` satisfies the envelope invariant:
`rows` and `error_type` are never both present; `error` and `error_type` are
present only when `success` is false; and on failure the row count stays 0,
`rows` is absent, and an error kind is present. -/
theorem spec_C3 (d : Driver) (u q : String) (p : Option (List (String × PyObj))) :
    ((_execute_query_sync d u q p).rows.isSome &&
        (_execute_query_sync d u q p).error_type.isSome) = false
    ∧ ((_execute_query_sync d u q p).error.isSome = true →
        (_execute_query_sync d u q p).success = false)
    ∧ ((_execute_query_sync d u q p).error_type.isSome = true →
        (_execute_query_sync d u q p).success = false)
    ∧ ((_execute_query_sync d u q p).success = false →
        (_execute_query_sync d u q p).row_count = 0
        ∧ (_execute_query_sync d u q p).rows = none
        ∧ (_execute_query_sync d u q p).error_type.isSome = true) := by
  rcases exec_cases d u q p with ⟨e, he, hr⟩ | ⟨r, hok, hr⟩
  · obtain ⟨m, k, hs⟩ := classify_shape e
    rw [hr, hs]
    simp [failureOutput]
  · obtain ⟨h1, h2, h3, h4⟩ := runQuery_ok_shape d u q p r hok
    rw [hr]
    simp [h1, h2, h3]

/-- C3 witness: the invariant instantiated on a failed connection. -/
theorem spec_C3_witness :
    (_execute_query_sync connRefusedDriver "postgresql://h/db" "SELECT 1" none).row_count = 0
    ∧ (_execute_query_sync connRefusedDriver "postgresql://h/db" "SELECT 1" none).rows = none
    ∧ (_execute_query_sync connRefusedDriver "postgresql://h/db" "SELECT 1"
        none).error_type.isSome = true :=
  (spec_C3 connRefusedDriver "postgresql://h/db" "SELECT 1" none).2.2.2 rfl

/-- C4: classification precedence: membership in a narrower fault class
determines the classification regardless of the broader classes the fault also
belongs to — an integrity fault (which is also a database fault) classifies as
`integrity_error`, never `database_error`; operational and programming faults
likewise win over `database_error`; `database_error` itself wins over the
generic `sqlalchemy_error`; and the class hierarchy is respected. -/
theorem spec_C4 (e : PyExc) :
    (isIntegrityError e.cls = true →
      isDatabaseError e.cls = true ∧ (classify e).error_type = some "integrity_error")
    ∧ (isOperationalError e.cls = true → (classify e).error_type = some "connection_error")
    ∧ (isProgrammingError e.cls = true → (classify e).error_type = some "syntax_error")
    ∧ (isDatabaseError e.cls = true → isSQLAlchemyError e.cls = true)
    ∧ (isDatabaseError e.cls = true → isOperationalError e.cls = false →
        isProgrammingError e.cls = false → isIntegrityError e.cls = false →
        (classify e).error_type = some "database_error")
    ∧ (isSQLAlchemyError e.cls = true → isDatabaseError e.cls = false →
        (classify e).error_type = some "sqlalchemy_error") := by
  rcases e with ⟨c, o, s⟩
  cases c <;> simp [classify, isOperationalError, isProgrammingError, isIntegrityError,
    isDatabaseError, isSQLAlchemyError, failureOutput]

/-- C4 witness: a concrete integrity fault classifies as `integrity_error`
although it is simultaneously a database fault. -/
theorem spec_C4_witness :
    isDatabaseError (PyExc.mk .integrityError (some "duplicate key") "wrapped").cls = true
    ∧ (classify ⟨.integrityError, some "duplicate key", "wrapped"⟩).error_type =
        some "integrity_error" :=
  (spec_C4 ⟨.integrityError, some "duplicate key", "wrapped"⟩).1 rfl

/-- C8: a fault at connect time that is an `OperationalError` (connection
refused, timeout, network or auth failure) yields `error_type =
connection_error` and an `error` equal to the underlying driver message when
`orig` is available, else the fault's own string form, prefixed with
"Connection error: ". -/
theorem spec_C8 (d : Driver) (u q : String) (p : Option (List (String × PyObj))) (e : PyExc)
    (hc : d.connect (connectArgsOf u) = .error e)
    (hop : isOperationalError e.cls = true) :
    _execute_query_sync d u q p =
      failureOutput ("Connection error: " ++ e.orig.getD e.strForm) "connection_error" := by
  have hq := runQuery_conn_err d u q p e hc
  unfold _execute_query_sync
  rw [hq]
  simp [classify, hop, dbapiMsg]

/-- C8 witness: a refused connection with an underlying driver message. -/
theorem spec_C8_witness :
    _execute_query_sync connRefusedDriver "postgresql://h/db" "SELECT 1" none =
      failureOutput "Connection error: connection refused" "connection_error" :=
  spec_C8 connRefusedDriver "postgresql://h/db" "SELECT 1" none
    ⟨.operationalError, some "connection refused", "wrapped driver fault"⟩ rfl rfl

/-- C10: the serializer is idempotent: serializing an already-serialized value
changes nothing, because every serializer output is `None` or a JSON-native
scalar, each a fixed point of the serializer. -/
theorem spec_C10 (v : PyObj) :
    _serialize_value (_serialize_value v) = _serialize_value v := by
  rcases v with ⟨n, sc, bv, iso, hd, st⟩
  cases n <;> cases sc <;> cases bv <;> cases iso <;> cases hd <;>
    simp [_serialize_value, pyNone, pyStr]

/-- C5: a successful affecting statement commits explicitly (a commit event is
in the call's trace), leaves `rows` and `columns` absent, and reports the
driver's affected-row count with negative values clamped to 0, so the row
count is never negative. -/
theorem spec_C5 (d : Driver) (u q : String) (p : Option (List (String × PyObj)))
    (u1 u2 : Unit) (rc : Int)
    (hc : d.connect (connectArgsOf u) = .ok u1)
    (hr : d.run ⟨q, paramsArg p⟩ = .ok (.affected rc))
    (hcm : d.commit = .ok u2) :
    _execute_query_sync d u q p =
      ⟨true, none, if rc ≥ 0 then rc else 0, none, none, none⟩
    ∧ 0 ≤ (_execute_query_sync d u q p).row_count
    ∧ Event.commitCalled ∈ execEvents d u q p := by
  have hq := runQuery_affected d u q p u1 u2 rc hc hr hcm
  have hx : _execute_query_sync d u q p =
      ⟨true, none, if rc ≥ 0 then rc else 0, none, none, none⟩ := by
    unfold _execute_query_sync
    rw [hq]
  refine ⟨hx, ?_, ?_⟩
  · rw [hx]
    dsimp only
    split <;> omega
  · unfold execEvents
    rw [hq]
    simp

/-- C5 witness: a driver-reported count of -1 is clamped to 0, with commit in
the trace. -/
theorem spec_C5_witness :
    _execute_query_sync negCountDriver "postgresql://h/db" "UPDATE t SET a = 1" none =
      ⟨true, none, 0, none, none, none⟩
    ∧ 0 ≤ (_execute_query_sync negCountDriver "postgresql://h/db" "UPDATE t SET a = 1"
        none).row_count
    ∧ Event.commitCalled ∈ execEvents negCountDriver "postgresql://h/db" "UPDATE t SET a = 1"
        none :=
  spec_C5 negCountDriver "postgresql://h/db" "UPDATE t SET a = 1" none () () (-1) rfl rfl rfl

/-- C7: every call first creates its engine connection with the URL-dependent
`connect_args`: a fixed `connect_timeout` of 10 whenever the URL does not
mention sqlite (the file-based, embedded driver), and no timeout argument at
all when it does. -/
theorem spec_C7 (d : Driver) (u q : String) (p : Option (List (String × PyObj))) :
    (execEvents d u q p).head? = some (.connectCalled (connectArgsOf u))
    ∧ (strContains u "sqlite" = false → connectArgsOf u = ⟨some 10⟩)
    ∧ (strContains u "sqlite" = true → connectArgsOf u = ⟨none⟩) := by
  refine ⟨?_, ?_, ?_⟩
  · rcases runQuery_cases d u q p with ⟨e, hq⟩ | ⟨e, hq⟩ | ⟨dicts, cols, hq⟩ | ⟨e, hq⟩ | ⟨rc, hq⟩ <;>
      unfold execEvents <;> rw [hq] <;> rfl
  · intro h
    unfold connectArgsOf
    simp [h]
  · intro h
    unfold connectArgsOf
    simp [h]

/-- C7 witness: a network URL gets the 10-unit timeout, a sqlite URL gets
none, and the connect event leads the trace. -/
theorem spec_C7_witness :
    (execEvents rowsDriver "postgresql://h/db" "SELECT 1" none).head? =
      some (.connectCalled (connectArgsOf "postgresql://h/db"))
    ∧ connectArgsOf "postgresql://h/db" = ⟨some 10⟩
    ∧ connectArgsOf "sqlite:///tmp/x.db" = ⟨none⟩ :=
  ⟨(spec_C7 rowsDriver "postgresql://h/db" "SELECT 1" none).1,
   (spec_C7 rowsDriver "postgresql://h/db" "SELECT 1" none).2.1 (by decide),
   (spec_C7 rowsDriver "sqlite:///tmp/x.db" "SELECT 1" none).2.2 (by decide)⟩

/-- C9: `if params:` treats an empty mapping exactly like an absent one —
binding happens only for a non-empty mapping — and every execute call the
driver receives carries the statement with exactly those bound parameters. -/
theorem spec_C9 (d : Driver) (u q : String) :
    paramsArg none = none
    ∧ paramsArg (some []) = none
    ∧ (∀ l, l ≠ [] → paramsArg (some l) = some l)
    ∧ (∀ p c, Event.execCalled c ∈ execEvents d u q p → c = ⟨q, paramsArg p⟩) := by
  refine ⟨rfl, rfl, ?_, ?_⟩
  · intro l hl
    unfold paramsArg
    simp [hl]
  · intro p c hmem
    rcases runQuery_cases d u q p with ⟨e, hq⟩ | ⟨e, hq⟩ | ⟨dicts, cols, hq⟩ | ⟨e, hq⟩ | ⟨rc, hq⟩ <;>
      unfold execEvents at hmem <;> rw [hq] at hmem <;> simp at hmem
    all_goals simp [hmem]

/-- C9 witness: an empty mapping runs the statement literally and a non-empty
one is bound as given. -/
theorem spec_C9_witness :
    paramsArg (some []) = none
    ∧ paramsArg (some [("id", pyInt 5)]) = some [("id", pyInt 5)] :=
  ⟨(spec_C9 rowsDriver "postgresql://h/db" "SELECT 1").2.1,
   (spec_C9 rowsDriver "postgresql://h/db" "SELECT 1").2.2.1 [("id", pyInt 5)] (by decide)⟩


/-! Association-list machinery for the row-dict comprehension: Python dict
lookup, the comprehension as a left fold of dict updates, and the key order a
dict built by successive updates ends up with. -/

/-- Python dict lookup; keys in a dict are unique, the first match wins. -/
def dictLookup (d : List (String × PyObj)) (k : String) : Option PyObj :=
  match d with
  | [] => none
  | (ka, va) :: rest => if ka = k then some va else dictLookup rest k

/-- `{col: _serialize_value(row[i]) for i, col in enumerate(columns)}` as
Python evaluates it: a left fold of dict updates over the enumerated column
list (total form; out-of-range indices are not reached when every index is
below the row length). -/
def pyRowDict (cols : List String) (row : List PyObj) : List (String × PyObj) :=
  (enumFromN 0 cols).foldl
    (fun acc pr => dictInsert acc pr.2 (_serialize_value ((row.get? pr.1).getD pyNone))) []

/-- First-occurrence deduplication with an accumulator of already-seen keys. -/
def pyDictKeysAux (seen : List String) : List String → List String
  | [] => []
  | c :: rest =>
    if c ∈ seen then pyDictKeysAux seen rest else c :: pyDictKeysAux (c :: seen) rest

/-- The columns list with duplicate names collapsed to their first occurrence,
in order: the key sequence of the comprehension's dict. -/
def pyDictKeys (cols : List String) : List String := pyDictKeysAux [] cols

lemma enumFromN_map_snd (n : Nat) (l : List α) : (enumFromN n l).map Prod.snd = l := by
  induction l generalizing n with
  | nil => rfl
  | cons a tl ih => simp [enumFromN, ih]

lemma mem_enumFromN_lt (n : Nat) (l : List α) (pr : Nat × α)
    (h : pr ∈ enumFromN n l) : pr.1 < n + l.length := by
  induction l generalizing n with
  | nil => simp [enumFromN] at h
  | cons a tl ih =>
    simp only [enumFromN, List.mem_cons] at h
    rcases h with h | h
    · subst h
      simp
    · have := ih (n + 1) h
      simp only [List.length_cons]
      omega

lemma dictInsert_keys (d : List (String × PyObj)) (k : String) (v : PyObj) :
    (dictInsert d k v).map Prod.fst =
      if k ∈ d.map Prod.fst then d.map Prod.fst else d.map Prod.fst ++ [k] := by
  induction d with
  | nil => simp [dictInsert]
  | cons a rest ih =>
    rcases a with ⟨ka, va⟩
    by_cases hka : ka = k
    · subst hka
      simp [dictInsert]
    · simp only [dictInsert, if_neg hka, List.map_cons, ih]
      by_cases hmem : k ∈ rest.map Prod.fst
      · rw [if_pos hmem, if_pos (List.mem_cons_of_mem _ hmem)]
      · rw [if_neg hmem, if_neg ?_, List.cons_append]
        intro hcons
        rcases List.mem_cons.mp hcons with hh | hh
        · exact hka hh.symm
        · exact hmem hh

lemma pyDictKeysAux_congr (seen1 seen2 l : List String)
    (h : ∀ x, x ∈ seen1 ↔ x ∈ seen2) :
    pyDictKeysAux seen1 l = pyDictKeysAux seen2 l := by
  induction l generalizing seen1 seen2 with
  | nil => rfl
  | cons c rest ih =>
    simp only [pyDictKeysAux]
    by_cases hc : c ∈ seen1
    · rw [if_pos hc, if_pos ((h c).mp hc)]
      exact ih seen1 seen2 h
    · rw [if_neg hc, if_neg fun hh => hc ((h c).mpr hh),
        ih (c :: seen1) (c :: seen2) (by intro x; simp [h x])]

lemma foldl_dictInsert_keys (f : Nat × String → PyObj) (l : List (Nat × String))
    (acc : List (String × PyObj)) :
    ((l.foldl (fun a pr => dictInsert a pr.2 (f pr)) acc).map Prod.fst) =
      acc.map Prod.fst ++ pyDictKeysAux (acc.map Prod.fst) (l.map Prod.snd) := by
  induction l generalizing acc with
  | nil => simp [pyDictKeysAux]
  | cons pr rest ih =>
    simp only [List.foldl_cons, List.map_cons, pyDictKeysAux]
    rw [ih (dictInsert acc pr.2 (f pr)), dictInsert_keys]
    by_cases hmem : pr.2 ∈ acc.map Prod.fst
    · rw [if_pos hmem, if_pos hmem]
    · rw [if_neg hmem, if_neg hmem,
        pyDictKeysAux_congr (acc.map Prod.fst ++ [pr.2]) (pr.2 :: acc.map Prod.fst) _
          (by intro x; simp [or_comm])]
      simp

lemma pyRowDict_keys (cols : List String) (row : List PyObj) :
    (pyRowDict cols row).map Prod.fst = pyDictKeys cols := by
  unfold pyRowDict pyDictKeys
  rw [foldl_dictInsert_keys]
  simp [enumFromN_map_snd]

lemma dictLookup_dictInsert (d : List (String × PyObj)) (k : String) (v : PyObj)
    (k2 : String) :
    dictLookup (dictInsert d k v) k2 = if k = k2 then some v else dictLookup d k2 := by
  induction d with
  | nil => simp [dictInsert, dictLookup]
  | cons a rest ih =>
    rcases a with ⟨ka, va⟩
    by_cases hka : ka = k
    · subst hka
      by_cases hk2 : ka = k2 <;> simp [dictInsert, dictLookup, hk2]
    · by_cases hk2 : ka = k2
      · subst hk2
        have hne : ¬k = ka := fun hh => hka hh.symm
        simp [dictInsert, dictLookup, hka, hne]
      · simp [dictInsert, dictLookup, hka, hk2, ih]

lemma foldl_dictInsert_lookup (f : Nat × String → PyObj) (l : List (Nat × String))
    (acc : List (String × PyObj)) (k : String) :
    dictLookup (l.foldl (fun a pr => dictInsert a pr.2 (f pr)) acc) k =
      ((l.reverse.find? fun pr => pr.2 == k).map f).or (dictLookup acc k) := by
  induction l generalizing acc with
  | nil => simp [Option.or]
  | cons pr rest ih =>
    simp only [List.foldl_cons, List.reverse_cons]
    rw [ih (dictInsert acc pr.2 (f pr)), dictLookup_dictInsert, List.find?_append]
    cases hfind : rest.reverse.find? fun pr2 => pr2.2 == k with
    | some pr2 => simp [Option.or]
    | none =>
      by_cases hp : pr.2 = k
      · simp [List.find?, hp, Option.or]
      · have hpb : (pr.2 == k) = false := beq_false_of_ne hp
        simp [List.find?, hpb, Option.or, hp]

lemma pyRowDict_lookup (cols : List String) (row : List PyObj) (k : String) :
    dictLookup (pyRowDict cols row) k =
      ((enumFromN 0 cols).reverse.find? fun pr => pr.2 == k).map
        fun pr => _serialize_value ((row.get? pr.1).getD pyNone) := by
  unfold pyRowDict
  rw [foldl_dictInsert_lookup]
  exact Option.or_none

lemma pyDictKeysAux_nodup (l : List String) :
    ∀ seen, l.Nodup → (∀ c ∈ l, c ∉ seen) → pyDictKeysAux seen l = l := by
  induction l with
  | nil =>
    intro seen _ _
    rfl
  | cons c rest ih =>
    intro seen hnd hseen
    simp only [List.nodup_cons] at hnd
    simp only [pyDictKeysAux, if_neg (hseen c (List.mem_cons_self c rest))]
    rw [ih (c :: seen) hnd.2]
    intro x hx
    simp only [List.mem_cons, not_or]
    exact ⟨fun hxc => hnd.1 (hxc ▸ hx), hseen x (List.mem_cons_of_mem _ hx)⟩

lemma pyDictKeys_nodup (cols : List String) (h : cols.Nodup) : pyDictKeys cols = cols :=
  pyDictKeysAux_nodup cols [] h (by simp)

lemma buildRowDictAux_eq_foldl (row : List PyObj) (l : List (Nat × String))
    (acc : List (String × PyObj)) (hlt : ∀ pr ∈ l, pr.1 < row.length) :
    buildRowDictAux row l acc =
      .ok (l.foldl
        (fun a pr => dictInsert a pr.2 (_serialize_value ((row.get? pr.1).getD pyNone)))
        acc) := by
  induction l generalizing acc with
  | nil => simp [buildRowDictAux]
  | cons pr rest ih =>
    rcases pr with ⟨i, c⟩
    have hi : i < row.length := hlt (i, c) (by simp)
    obtain ⟨v, hv⟩ : ∃ v, row.get? i = some v := by
      cases hq : row.get? i with
      | none => exact absurd (List.get?_eq_none.mp hq) (by omega)
      | some v => exact ⟨v, rfl⟩
    simp only [buildRowDictAux, hv, List.foldl_cons]
    rw [ih _ fun pr2 h2 => hlt pr2 (List.mem_cons_of_mem _ h2)]
    simp [hv]

lemma buildRowDict_eq (cols : List String) (row : List PyObj)
    (hlen : cols.length ≤ row.length) :
    buildRowDict cols row = .ok (pyRowDict cols row) := by
  unfold buildRowDict pyRowDict
  exact buildRowDictAux_eq_foldl row (enumFromN 0 cols) [] fun pr hpr => by
    have := mem_enumFromN_lt 0 cols pr hpr
    omega

lemma buildRows_eq (cols : List String) (rws : List (List PyObj))
    (hlen : ∀ row ∈ rws, cols.length ≤ row.length) :
    buildRows cols rws = .ok (rws.map (pyRowDict cols)) := by
  induction rws with
  | nil => rfl
  | cons row tl ih =>
    simp only [buildRows, buildRowDict_eq cols row (hlen row (by simp)),
      ih fun r hr => hlen r (List.mem_cons_of_mem _ hr)]
    simp

/-- C6 counterexample: the claim "each row's keys equal the columns list
exactly and in the same order" fails for a successful row-returning statement
with a duplicated column label (e.g. `SELECT 1 AS x, 2 AS x`): the dict
comprehension collapses the duplicate, so the single row has keys `["x"]`
while `columns` is `["x", "x"]`. -/
theorem spec_C6_cex :
    (_execute_query_sync dupColDriver "postgresql://h/db" "SELECT 1 AS x, 2 AS x" none).success
      = true
    ∧ (_execute_query_sync dupColDriver "postgresql://h/db" "SELECT 1 AS x, 2 AS x"
        none).columns = some ["x", "x"]
    ∧ (_execute_query_sync dupColDriver "postgresql://h/db" "SELECT 1 AS x, 2 AS x"
        none).rows = some [[("x", pyInt 2)]]
    ∧ ¬(∀ dct ∈ ((_execute_query_sync dupColDriver "postgresql://h/db" "SELECT 1 AS x, 2 AS x"
        none).rows.getD []), dct.map Prod.fst = ["x", "x"]) := by
  refine ⟨by decide, by decide, by decide, ?_⟩
  intro hall
  have := hall [("x", pyInt 2)] (by decide)
  simp at this

/-- C6 (amended): for every row-returning statement that succeeds — duplicate
column labels allowed — the row count equals the number of rows fetched, the
column names are captured in the result set's declared order, error fields
are absent, and every row is the comprehension's dict over the serialized
cells: its keys are the columns list with duplicate names collapsed to their
first occurrence, in order, and the value at each key is the serialized cell
of that name's last column index (dict-update semantics); in particular, when
the column names are pairwise distinct, the keys equal the columns list
exactly and in the same order. -/
theorem spec_C6 (d : Driver) (u q : String) (p : Option (List (String × PyObj)))
    (u1 : Unit) (cols : List String) (rws : List (List PyObj))
    (hc : d.connect (connectArgsOf u) = .ok u1)
    (hr : d.run ⟨q, paramsArg p⟩ = .ok (.rowSet cols rws))
    (hlen : ∀ row ∈ rws, cols.length ≤ row.length) :
    _execute_query_sync d u q p =
      ⟨true, some (rws.map (pyRowDict cols)), (rws.length : Int), some cols, none, none⟩
    ∧ (∀ row, (pyRowDict cols row).map Prod.fst = pyDictKeys cols)
    ∧ (∀ row k, dictLookup (pyRowDict cols row) k =
        ((enumFromN 0 cols).reverse.find? fun pr => pr.2 == k).map
          fun pr => _serialize_value ((row.get? pr.1).getD pyNone))
    ∧ (cols.Nodup → pyDictKeys cols = cols) := by
  have hb := buildRows_eq cols rws hlen
  have hq := runQuery_rows_ok d u q p u1 cols rws _ hc hr hb
  refine ⟨?_, fun row => pyRowDict_keys cols row, fun row k => pyRowDict_lookup cols row k,
    fun hnd => pyDictKeys_nodup cols hnd⟩
  unfold _execute_query_sync
  rw [hq]
  simp

/-- C6 witness: the duplicated-label statement `SELECT 1 AS x, 2 AS x`
collapses to the single key `x` carrying the last column's serialized value,
while a distinct-column result keeps every key in declared order. -/
theorem spec_C6_witness :
    (_execute_query_sync dupColDriver "postgresql://h/db" "SELECT 1 AS x, 2 AS x" none).rows =
      some [[("x", pyInt 2)]]
    ∧ pyDictKeys ["x", "x"] = ["x"]
    ∧ dictLookup (pyRowDict ["x", "x"] [pyInt 1, pyInt 2]) "x" = some (pyInt 2)
    ∧ _execute_query_sync rowsDriver "postgresql://h/db" "SELECT id, name FROM t" none =
      ⟨true,
       some [[("id", pyInt 1), ("name", pyStr "a")], [("id", pyInt 2), ("name", pyStr "b")]],
       2, some ["id", "name"], none, none⟩
    ∧ pyDictKeys ["id", "name"] = ["id", "name"] := by
  have h1 := spec_C6 dupColDriver "postgresql://h/db" "SELECT 1 AS x, 2 AS x" none ()
    ["x", "x"] [[pyInt 1, pyInt 2]] rfl rfl (by decide)
  have h2 := spec_C6 rowsDriver "postgresql://h/db" "SELECT id, name FROM t" none ()
    ["id", "name"] [[pyInt 1, pyStr "a"], [pyInt 2, pyStr "b"]] rfl rfl (by decide)
  refine ⟨?_, by decide, ?_, ?_, by decide⟩
  · rw [h1.1]
    decide
  · exact (h1.2.2.1 [pyInt 1, pyInt 2] "x").trans (by decide)
  · rw [h2.1]
    decide
